import Mathlib

/-!
Shallow embedding of `backend.py`, the single-file backend of the
AI-Medical-Analyzer repository.

The module-level startup code (lines 33-47) reads the `GEMINI_API_KEY`
environment variable and initializes a process-wide `client` handle (or
leaves it `None`).  The gateway `analyze_with_gemini` (lines 50-118)
checks the client, decodes the uploaded bytes, selects a prompt by exact
match on `upload_type`, builds the inference request, and post-processes
the response text; the Flask route `analyze_report` (lines 121-133)
wraps it behind `POST /api/analyze`.

External collaborators (`PIL.Image.open`, `client.generate_content`,
`json.loads`) are parameters of the embedding, gathered in `Env`.
Python `None`-able values are `Option`s; exceptions raised by the
collaborators are `Except.error` carrying the exception message, exactly
as `str(e)` renders it.  Process-wide module state is threaded
explicitly through the gateway as a `ProcState` value, and the embedding
additionally records which collaborators were invoked in an `Effects`
value so that absence of side effects is provable.
-/

namespace Backend

/-- Python/JSON values, as produced by `json.loads` and consumed by
`jsonify`: the result type of the gateway is one of these (or Python
`None`, modelled by `Option`). -/
inductive Json where
  | null
  | bool (b : Bool)
  | num (q : ℚ)
  | str (s : String)
  | arr (elems : List Json)
  | obj (fields : List (String × Json))

/-- An in-memory decoded image, the result of `PIL.Image.open` (line 57).
The decoded pixel data is opaque to the backend; only its identity matters. -/
structure PILImage where
  data : List Nat

/-- One element of the `contents` list passed to `generate_content`
(lines 94-98): either a plain string or a decoded image. -/
inductive Part where
  | text (s : String)
  | image (img : PILImage)

/-- `types.Type` values used in the schema definition (lines 82-90). -/
inductive SchemaType where
  | OBJECT
  | STRING
deriving DecidableEq

/-- A leaf `types.Schema` as built for each property (lines 85-87):
a type, an optional enum, and a description. -/
structure FieldSchema where
  schema_type : SchemaType
  enumVals : List String
  description : String

/-- The object-level `types.Schema` (lines 82-90): a type, named
properties, and the required-field list. -/
structure ObjectSchema where
  schema_type : SchemaType
  properties : List (String × FieldSchema)
  required : List String

/-- A value that can sit in the `generation_config` dict passed to
`generate_content` (lines 99-101). A schema is representable here, so the
embedding can express whether one was passed. -/
inductive ConfigVal where
  | num (q : ℚ)
  | str (s : String)
  | schemaVal (s : ObjectSchema)

/-- The argument record of a `client.generate_content` call (lines 93-102):
the `contents` list and the `generation_config` dict. -/
structure GenRequest where
  contents : List Part
  generation_config : List (String × ConfigVal)

/-- The process-wide AI client handle, `genai.GenerativeModel(...)`
(line 43). Opaque apart from the model name it was created with. -/
structure Client where
  model_name : String

/-- Module-level process state: the `GEMINI_API_KEY` read at line 35 and
the `client` handle set at lines 37-47 (`None` when unavailable). -/
structure ProcState where
  gemini_api_key : Option String
  client : Option Client

/-- The external collaborators, as functions:
`imageOpen` models `PIL.Image.open` on the uploaded bytes,
`generate` models `client.generate_content` followed by the `.text`
accessor (an `Except.error` is a raised exception, its payload the
exception message), and `jsonLoads` models `json.loads` (`none` is a
raised `json.JSONDecodeError`). -/
structure Env where
  imageOpen : List Nat → Except String PILImage
  generate : GenRequest → Except String String
  jsonLoads : String → Option Json

/-- Instrumentation recording which collaborators one gateway invocation
reached: whether `PIL.Image.open` was called, and the exact request
passed to `client.generate_content` when that call was made. -/
structure Effects where
  decodeAttempted : Bool
  callMade : Option GenRequest

/-- The system persona instruction (lines 60-66). -/
def system_instruction : String :=
  "You are an expert, empathetic AI medical report analyzer. Analyze the uploaded document (X-ray, lab report, or prescription). Your output must be easy for a layperson to understand. Critically, your output must strictly adhere to the provided JSON schema. Do NOT include any text outside of the JSON object."

/-- The prompt dispatch on `upload_type` (lines 68-79).  The route hands
the gateway `request.form.get` output, so a missing `type` field is
`none`; Python `==` against a string is `false` for `None`, so `none`
falls through to the generic branch exactly as in the source. -/
def select_prompt (upload_type : Option String) : String :=
  if upload_type = some "medical_image" then
    "Analyze this X-ray, CT, or medical image. Identify and describe any significant findings related to bone, tissue, or organs in simple, non-technical language. Provide a brief summary."
  else if upload_type = some "blood_report" then
    "Analyze this lab report image. Identify all abnormal or out-of-range parameters. Explain what the deviation from the normal range might suggest in simple, simple terms."
  else if upload_type = some "prescription" then
    "Decode this prescription image. List all medications, their dosage, and the precise daily schedule/frequency. " ++ "Place the decoded information in the \x27details\x27 field."
  else
    "Analyze this image and explain the medical content simply."

/-- The structured-output schema defined at lines 82-90. -/
def response_schema : ObjectSchema :=
  { schema_type := SchemaType.OBJECT
  , properties :=
      [ ("summary",
          { schema_type := SchemaType.STRING
          , enumVals := []
          , description := "A simplified, layman\x27s summary of the findings." })
      , ("severity",
          { schema_type := SchemaType.STRING
          , enumVals := ["Low", "Moderate", "Severe", "Informational"]
          , description := "Assessment of the finding\x27s urgency or seriousness." })
      , ("details",
          { schema_type := SchemaType.STRING
          , enumVals := []
          , description := "Detailed findings, e.g., abnormal values, decoded prescription, or specific diagnoses." }) ]
  , required := ["summary", "severity", "details"] }

/-- The `temperature` entry of `generation_config` (line 100). -/
def temperature_value : ℚ := 0.2

/-- The `severity` property of `response_schema` (line 86), named so its
enum can be inspected. -/
def severity_field_schema : FieldSchema :=
  { schema_type := SchemaType.STRING
  , enumVals := ["Low", "Moderate", "Severe", "Informational"]
  , description := "Assessment of the finding\x27s urgency or seriousness." }

/-- The exact argument record of the `generate_content` call at lines
93-102: `contents` is the system instruction, the decoded image, and the
selected prompt; `generation_config` holds only the temperature.  Note
that `response_schema` does not occur in it. -/
def generate_content_request (img : PILImage) (upload_type : Option String) : GenRequest :=
  { contents := [Part.text system_instruction, Part.image img, Part.text (select_prompt upload_type)]
  , generation_config := [("temperature", ConfigVal.num temperature_value)] }

/-- `analyze_with_gemini` (lines 50-118), state-threaded: the result is
the returned Python value (`none` when the function falls off its end
and implicitly returns `None`), the effects record, and the process
state after the call.  Branches mirror the source: the client check
(lines 51-53), `Image.open` (line 57) and the surrounding `try` (lines
55, 115-118), the `generate_content` call (lines 93-102), the truthiness
test on `response.text` (line 105), and the `json.loads` attempt with
its `JSONDecodeError` fallback (lines 106-113). -/
def analyze_with_gemini (env : Env) (st : ProcState) (file_stream : List Nat)
    (upload_type : Option String) : (Option Json × Effects) × ProcState :=
  match st.client with
  | none =>
      ((some (Json.obj
          [ ("summary", Json.str "AI Service Not Available. Check API key setup.")
          , ("severity", Json.str "Error")
          , ("details", Json.str "N/A") ]),
        { decodeAttempted := false, callMade := none }), st)
  | some _c =>
      match env.imageOpen file_stream with
      | Except.error e =>
          ((some (Json.obj
              [ ("summary", Json.str ("Gemini API or processing failed: " ++ e))
              , ("severity", Json.str "Error")
              , ("details", Json.str "N/A") ]),
            { decodeAttempted := true, callMade := none }), st)
      | Except.ok img =>
          match env.generate (generate_content_request img upload_type) with
          | Except.error e =>
              ((some (Json.obj
                  [ ("summary", Json.str ("Gemini API or processing failed: " ++ e))
                  , ("severity", Json.str "Error")
                  , ("details", Json.str "N/A") ]),
                { decodeAttempted := true
                , callMade := some (generate_content_request img upload_type) }), st)
          | Except.ok text =>
              if text = "" then
                ((none, { decodeAttempted := true
                        , callMade := some (generate_content_request img upload_type) }), st)
              else
                match env.jsonLoads text with
                | some parsed =>
                    ((some parsed, { decodeAttempted := true
                                   , callMade := some (generate_content_request img upload_type) }), st)
                | none =>
                    ((some (Json.obj
                        [ ("summary", Json.str "Error parsing AI response")
                        , ("severity", Json.str "Error")
                        , ("details", Json.str (text.take 500)) ]),
                      { decodeAttempted := true
                      , callMade := some (generate_content_request img upload_type) }), st)

/-- Module startup (lines 35-47): read the key, and when it is truthy try
to build the client, falling back to `none` on a constructor exception.
`configure_model` models `genai.configure` plus the
`genai.GenerativeModel` constructor. -/
def startup_state (getenv_key : Option String)
    (configure_model : String → Except String Client) : ProcState :=
  match getenv_key with
  | none => { gemini_api_key := none, client := none }
  | some key =>
      if key = "" then { gemini_api_key := some key, client := none }
      else
        match configure_model key with
        | Except.ok c => { gemini_api_key := some key, client := some c }
        | Except.error _ => { gemini_api_key := some key, client := none }

/-- An incoming `POST /api/analyze` request as the route sees it:
`request.files.get` and `request.form.get` results (lines 124-125). -/
structure HttpRequest where
  file : Option (List Nat)
  form_type : Option String

/-- An HTTP response: status code and JSON body. -/
structure HttpResponse where
  status : Nat
  body : Json

/-- The route handler `analyze_report` (lines 121-133), paired with a flag
recording whether the gateway was invoked.  `jsonify` of a Python `None`
result serializes as JSON `null`. -/
def analyze_report (env : Env) (st : ProcState) (req : HttpRequest) :
    HttpResponse × Bool :=
  match req.file with
  | none =>
      ({ status := 400, body := Json.obj [("error", Json.str "No file uploaded")] }, false)
  | some file_stream =>
      let result := ((analyze_with_gemini env st file_stream req.form_type).1).1
      ({ status := 200
       , body := match result with
                 | some j => j
                 | none => Json.null }, true)

/-- Observation helper: the `severity` field of a gateway result, when the
result is a JSON object carrying one. -/
def result_severity : Option Json → Option Json
  | some (Json.obj fields) => fields.lookup "severity"
  | _ => none

/-- A process state whose client handle was initialized successfully. -/
def state_with_client : ProcState :=
  { gemini_api_key := some "k", client := some { model_name := "gemini-2.0-flash-lite" } }

/-- A process state whose client handle is unavailable. -/
def state_without_client : ProcState :=
  { gemini_api_key := none, client := none }

/-- A process state with the same client handle as `state_with_client` but
a different recorded key, to observe that results depend on the client
handle only. -/
def state_alt : ProcState :=
  { gemini_api_key := none, client := some { model_name := "gemini-2.0-flash-lite" } }

/-- Collaborators for which decoding succeeds and the model replies with
empty text. -/
def env_empty_reply : Env :=
  { imageOpen := fun bytes => Except.ok { data := bytes }
  , generate := fun _ => Except.ok ""
  , jsonLoads := fun _ => none }

/-- Collaborators for which decoding succeeds and the model replies with
text that is not valid JSON. -/
def env_bad_json : Env :=
  { imageOpen := fun bytes => Except.ok { data := bytes }
  , generate := fun _ => Except.ok "not a json payload"
  , jsonLoads := fun _ => none }

/-- Collaborators for which image decoding raises. -/
def env_open_fails : Env :=
  { imageOpen := fun _ => Except.error "cannot identify image file"
  , generate := fun _ => Except.ok ""
  , jsonLoads := fun _ => none }

/-- Collaborators for which the inference call raises. -/
def env_generate_fails : Env :=
  { imageOpen := fun bytes => Except.ok { data := bytes }
  , generate := fun _ => Except.error "deadline exceeded"
  , jsonLoads := fun _ => none }

/-- A JSON value lying outside the requested three-field shape: severity
not in the enum, details not a string. -/
def offSchemaJson : Json :=
  Json.obj [("summary", Json.str "s"), ("severity", Json.str "Catastrophic"), ("details", Json.num 3)]

/-- Collaborators for which the model replies with text that parses to
`offSchemaJson`. -/
def env_off_schema : Env :=
  { imageOpen := fun bytes => Except.ok { data := bytes }
  , generate := fun _ => Except.ok "reply"
  , jsonLoads := fun _ => some offSchemaJson }

/-- Claim C1: refuted by the code.  When the client is available, decoding
succeeds, and the inference call succeeds but its response text is
empty, `response.text` is falsy (line 105), no branch returns, and the
gateway falls off the end of the function, implicitly returning Python
`None` instead of an `AnalysisResult`. -/
theorem empty_response_text_returns_none :
    ((analyze_with_gemini env_empty_reply state_with_client [0] (some "medical_image")).1).1
      = none := rfl

/-- Claim C2: refuted by the code.  The recorded `generate_content` call
carries exactly the system instruction, the decoded image, the selected
prompt, and a `generation_config` whose sole entry is the temperature
0.2: the three-field `response_schema` built at lines 82-90 is never
passed with the call. -/
theorem generate_call_omits_response_schema :
    (((analyze_with_gemini env_empty_reply state_with_client [0] (some "blood_report")).1).2).callMade
        = some { contents :=
                   [ Part.text system_instruction
                   , Part.image { data := [0] }
                   , Part.text (select_prompt (some "blood_report")) ]
               , generation_config := [("temperature", ConfigVal.num temperature_value)] }
    ∧ List.lookup "response_schema" [("temperature", ConfigVal.num temperature_value)] = none
    ∧ temperature_value = 0.2
    ∧ response_schema.required = ["summary", "severity", "details"] :=
  ⟨rfl, rfl, rfl, rfl⟩

/-- Claim C3: confirmed.  On non-empty response text that fails JSON
parsing, the gateway returns exactly the parse-error object whose
`details` is the first 500 characters of the raw text; that truncation
has length `min n 500` and is a prefix of the raw text. -/
theorem parse_failure_truncates_to_500 (env : Env) (st : ProcState) (c : Client)
    (file_stream : List Nat) (upload_type : Option String) (img : PILImage) (text : String)
    (hclient : st.client = some c)
    (hopen : env.imageOpen file_stream = Except.ok img)
    (hgen : env.generate (generate_content_request img upload_type) = Except.ok text)
    (hne : text ≠ "")
    (hparse : env.jsonLoads text = none) :
    ((analyze_with_gemini env st file_stream upload_type).1).1
        = some (Json.obj
            [ ("summary", Json.str "Error parsing AI response")
            , ("severity", Json.str "Error")
            , ("details", Json.str (text.take 500)) ])
    ∧ (text.take 500).length = min text.length 500
    ∧ text.take 500 ++ text.drop 500 = text := by
  refine ⟨by simp [analyze_with_gemini, hclient, hopen, hgen, hparse, hne], ?_, ?_⟩
  · obtain ⟨l⟩ := text
    rw [String.take_eq]
    simp [List.length_take, Nat.min_comm]
  · obtain ⟨l⟩ := text
    rw [String.take_eq, String.drop_eq]
    show String.mk (l.take 500 ++ l.drop 500) = String.mk l
    rw [List.take_append_drop]

/-- Witness for claim C3: a concrete run whose model reply is not JSON. -/
theorem parse_failure_truncates_to_500_witness :
    ((analyze_with_gemini env_bad_json state_with_client [0] none).1).1
        = some (Json.obj
            [ ("summary", Json.str "Error parsing AI response")
            , ("severity", Json.str "Error")
            , ("details", Json.str (String.take "not a json payload" 500)) ])
    ∧ (String.take "not a json payload" 500).length
        = min (String.length "not a json payload") 500
    ∧ String.take "not a json payload" 500 ++ String.drop "not a json payload" 500
        = "not a json payload" :=
  parse_failure_truncates_to_500 env_bad_json state_with_client
    { model_name := "gemini-2.0-flash-lite" } [0] none { data := [0] } "not a json payload"
    rfl rfl rfl (by decide) rfl

/-- Claim C4: confirmed.  With the client handle unavailable, the gateway
returns exactly the fixed unavailability result for every input, and its
effects record shows that neither `Image.open` nor `generate_content`
was invoked. -/
theorem unavailable_client_short_circuits (env : Env) (st : ProcState)
    (file_stream : List Nat) (upload_type : Option String)
    (h : st.client = none) :
    analyze_with_gemini env st file_stream upload_type
      = ((some (Json.obj
            [ ("summary", Json.str "AI Service Not Available. Check API key setup.")
            , ("severity", Json.str "Error")
            , ("details", Json.str "N/A") ]),
          { decodeAttempted := false, callMade := none }), st) := by
  simp [analyze_with_gemini, h]

/-- Witness for claim C4: a concrete unavailable-client run. -/
theorem unavailable_client_short_circuits_witness :
    analyze_with_gemini env_bad_json state_without_client [1, 2] (some "prescription")
      = ((some (Json.obj
            [ ("summary", Json.str "AI Service Not Available. Check API key setup.")
            , ("severity", Json.str "Error")
            , ("details", Json.str "N/A") ]),
          { decodeAttempted := false, callMade := none }), state_without_client) :=
  unavailable_client_short_circuits env_bad_json state_without_client [1, 2]
    (some "prescription") rfl

/-- Claim C5: confirmed.  A raised exception with message `m` — whether
from image decoding or from the inference call — is caught and converted
to exactly the error object whose summary appends `m` to the fixed
lead-in, and in the embedding every branch returns, so nothing
propagates. -/
theorem caught_exception_yields_error_result (env : Env) (st : ProcState) (c : Client)
    (file_stream : List Nat) (upload_type : Option String) (m : String)
    (hclient : st.client = some c) :
    (env.imageOpen file_stream = Except.error m →
      ((analyze_with_gemini env st file_stream upload_type).1).1
        = some (Json.obj
            [ ("summary", Json.str ("Gemini API or processing failed: " ++ m))
            , ("severity", Json.str "Error")
            , ("details", Json.str "N/A") ]))
    ∧ (∀ img, env.imageOpen file_stream = Except.ok img →
        env.generate (generate_content_request img upload_type) = Except.error m →
        ((analyze_with_gemini env st file_stream upload_type).1).1
          = some (Json.obj
              [ ("summary", Json.str ("Gemini API or processing failed: " ++ m))
              , ("severity", Json.str "Error")
              , ("details", Json.str "N/A") ])) := by
  constructor
  · intro ho
    simp [analyze_with_gemini, hclient, ho]
  · intro img ho hg
    simp [analyze_with_gemini, hclient, ho, hg]

/-- Witness for claim C5: a concrete run whose inference call raises. -/
theorem caught_exception_yields_error_result_witness :
    ((analyze_with_gemini env_generate_fails state_with_client [3] (some "blood_report")).1).1
      = some (Json.obj
          [ ("summary", Json.str ("Gemini API or processing failed: " ++ "deadline exceeded"))
          , ("severity", Json.str "Error")
          , ("details", Json.str "N/A") ]) :=
  (caught_exception_yields_error_result env_generate_fails state_with_client
      { model_name := "gemini-2.0-flash-lite" } [3] (some "blood_report") "deadline exceeded"
      rfl).2 { data := [3] } rfl rfl

/-- Claim C6: confirmed.  Prompt selection is by exact string match on
`upload_type`: the three recognized tags map to their dedicated prompts
(the prescription prompt ends with the sentence directing the decoded
content into the details field), every other value maps to the generic
prompt, and the request handed to the inference call carries the
selected prompt as its final content part. -/
theorem prompt_selected_by_exact_match (upload_type other_type : Option String)
    (env : Env) (st : ProcState) (c : Client) (file_stream : List Nat) (img : PILImage)
    (h1 : other_type ≠ some "medical_image") (h2 : other_type ≠ some "blood_report")
    (h3 : other_type ≠ some "prescription")
    (hclient : st.client = some c)
    (hopen : env.imageOpen file_stream = Except.ok img) :
    select_prompt (some "medical_image")
        = "Analyze this X-ray, CT, or medical image. Identify and describe any significant findings related to bone, tissue, or organs in simple, non-technical language. Provide a brief summary."
    ∧ select_prompt (some "blood_report")
        = "Analyze this lab report image. Identify all abnormal or out-of-range parameters. Explain what the deviation from the normal range might suggest in simple, simple terms."
    ∧ select_prompt (some "prescription")
        = "Decode this prescription image. List all medications, their dosage, and the precise daily schedule/frequency. "
            ++ "Place the decoded information in the \x27details\x27 field."
    ∧ select_prompt other_type = "Analyze this image and explain the medical content simply."
    ∧ (generate_content_request img upload_type).contents
        = [ Part.text system_instruction
          , Part.image img
          , Part.text (select_prompt upload_type) ]
    ∧ (((analyze_with_gemini env st file_stream upload_type).1).2).callMade
        = some (generate_content_request img upload_type) := by
  refine ⟨rfl, rfl, rfl, by simp [select_prompt, h1, h2, h3], rfl, ?_⟩
  cases hg : env.generate (generate_content_request img upload_type) with
  | error e => simp [analyze_with_gemini, hclient, hopen, hg]
  | ok text =>
    by_cases ht : text = ""
    · simp [analyze_with_gemini, hclient, hopen, hg, ht]
    · cases hp : env.jsonLoads text with
      | none => simp [analyze_with_gemini, hclient, hopen, hg, ht, hp]
      | some parsed =>
          simp [analyze_with_gemini, hclient, hopen, hg, ht, hp]

/-- Witness for claim C6: an unrecognized tag and a concrete call. -/
theorem prompt_selected_by_exact_match_witness :
    select_prompt (some "medical_image")
        = "Analyze this X-ray, CT, or medical image. Identify and describe any significant findings related to bone, tissue, or organs in simple, non-technical language. Provide a brief summary."
    ∧ select_prompt (some "blood_report")
        = "Analyze this lab report image. Identify all abnormal or out-of-range parameters. Explain what the deviation from the normal range might suggest in simple, simple terms."
    ∧ select_prompt (some "prescription")
        = "Decode this prescription image. List all medications, their dosage, and the precise daily schedule/frequency. "
            ++ "Place the decoded information in the \x27details\x27 field."
    ∧ select_prompt (some "selfie") = "Analyze this image and explain the medical content simply."
    ∧ (generate_content_request { data := [0] } (some "prescription")).contents
        = [ Part.text system_instruction
          , Part.image { data := [0] }
          , Part.text (select_prompt (some "prescription")) ]
    ∧ (((analyze_with_gemini env_bad_json state_with_client [0] (some "prescription")).1).2).callMade
        = some (generate_content_request { data := [0] } (some "prescription")) :=
  prompt_selected_by_exact_match (some "prescription") (some "selfie")
    env_bad_json state_with_client { model_name := "gemini-2.0-flash-lite" } [0] { data := [0] }
    (by decide) (by decide) (by decide) rfl rfl

/-- Claim C7: confirmed.  A request without a `file` field gets HTTP 400
with exactly the no-file error body and the gateway is not invoked,
whatever the `type` field holds; any request that does carry a file gets
HTTP 200. -/
theorem missing_file_yields_400 (env : Env) (st : ProcState) (req wreq : HttpRequest)
    (bytes : List Nat)
    (hmiss : req.file = none) (hpresent : wreq.file = some bytes) :
    analyze_report env st req
        = ({ status := 400, body := Json.obj [("error", Json.str "No file uploaded")] }, false)
    ∧ (analyze_report env st wreq).1.status = 200 := by
  constructor
  · simp [analyze_report, hmiss]
  · simp [analyze_report, hpresent]

/-- Witness for claim C7: one fileless request, one request with a file. -/
theorem missing_file_yields_400_witness :
    analyze_report env_bad_json state_with_client
        { file := none, form_type := some "blood_report" }
        = ({ status := 400, body := Json.obj [("error", Json.str "No file uploaded")] }, false)
    ∧ (analyze_report env_bad_json state_with_client
        { file := some [9], form_type := none }).1.status = 200 :=
  missing_file_yields_400 env_bad_json state_with_client
    { file := none, form_type := some "blood_report" }
    { file := some [9], form_type := none } [9] rfl rfl

/-- Claim C8: confirmed.  Whenever the response text is non-empty and
parses, the parsed value is returned verbatim — for an arbitrary JSON
value `j`, with no shape, field-type, or severity checking. -/
theorem parsed_json_returned_verbatim (env : Env) (st : ProcState) (c : Client)
    (file_stream : List Nat) (upload_type : Option String) (img : PILImage) (text : String)
    (j : Json)
    (hclient : st.client = some c)
    (hopen : env.imageOpen file_stream = Except.ok img)
    (hgen : env.generate (generate_content_request img upload_type) = Except.ok text)
    (hne : text ≠ "")
    (hparse : env.jsonLoads text = some j) :
    ((analyze_with_gemini env st file_stream upload_type).1).1 = some j := by
  simp [analyze_with_gemini, hclient, hopen, hgen, hne, hparse]

/-- Witness for claim C8: the reply parses to an object whose severity is
outside the enum and whose details is not a string; it comes back
unmodified. -/
theorem parsed_json_returned_verbatim_witness :
    ((analyze_with_gemini env_off_schema state_with_client [0] (some "medical_image")).1).1
      = some offSchemaJson :=
  parsed_json_returned_verbatim env_off_schema state_with_client
    { model_name := "gemini-2.0-flash-lite" } [0] (some "medical_image") { data := [0] }
    "reply" offSchemaJson rfl rfl rfl (by decide) rfl

/-- Claim C9: confirmed.  Every gateway invocation returns the process
state it was given — the client handle is only read — and two states
agreeing on the client handle produce identical results, so the outcome
depends only on the arguments, the collaborators, and the handle. -/
theorem gateway_preserves_process_state (env : Env) (st st2 : ProcState)
    (file_stream : List Nat) (upload_type : Option String)
    (hsame : st2.client = st.client) :
    (analyze_with_gemini env st file_stream upload_type).2 = st
    ∧ (analyze_with_gemini env st2 file_stream upload_type).1
        = (analyze_with_gemini env st file_stream upload_type).1 := by
  have frame : ∀ s : ProcState, (analyze_with_gemini env s file_stream upload_type).2 = s := by
    intro s
    cases hc : s.client with
    | none => simp [analyze_with_gemini, hc]
    | some c =>
      cases ho : env.imageOpen file_stream with
      | error e => simp [analyze_with_gemini, hc, ho]
      | ok img =>
        cases hg : env.generate (generate_content_request img upload_type) with
        | error e => simp [analyze_with_gemini, hc, ho, hg]
        | ok text =>
          by_cases ht : text = ""
          · simp [analyze_with_gemini, hc, ho, hg, ht]
          · cases hp : env.jsonLoads text with
            | none => simp [analyze_with_gemini, hc, ho, hg, ht, hp]
            | some parsed => simp [analyze_with_gemini, hc, ho, hg, ht, hp]
  refine ⟨frame st, ?_⟩
  cases hc : st.client with
  | none =>
    rw [hc] at hsame
    simp [analyze_with_gemini, hc, hsame]
  | some c =>
    rw [hc] at hsame
    cases ho : env.imageOpen file_stream with
    | error e => simp [analyze_with_gemini, hc, hsame, ho]
    | ok img =>
      cases hg : env.generate (generate_content_request img upload_type) with
      | error e => simp [analyze_with_gemini, hc, hsame, ho, hg]
      | ok text =>
        by_cases ht : text = ""
        · simp [analyze_with_gemini, hc, hsame, ho, hg, ht]
        · cases hp : env.jsonLoads text with
          | none => simp [analyze_with_gemini, hc, hsame, ho, hg, ht, hp]
          | some parsed => simp [analyze_with_gemini, hc, hsame, ho, hg, ht, hp]

/-- Witness for claim C9: two states sharing the client handle but
differing elsewhere yield the same result, and the state comes back
unchanged. -/
theorem gateway_preserves_process_state_witness :
    (analyze_with_gemini env_bad_json state_with_client [4] none).2 = state_with_client
    ∧ (analyze_with_gemini env_bad_json state_alt [4] none).1
        = (analyze_with_gemini env_bad_json state_with_client [4] none).1 :=
  gateway_preserves_process_state env_bad_json state_with_client state_alt [4] none rfl

/-- Claim C10: confirmed.  Each gateway-synthesized result — the
unavailable-client result, the parse-failure result, and the
exception-fallback result — carries severity exactly `"Error"`, and
`"Error"` is not among the enum values the `response_schema` requests
for the model's severity field, so the two never collide. -/
theorem synthesized_severity_error_not_in_enum (env env3 : Env) (st stub : ProcState)
    (c : Client) (file_stream : List Nat) (upload_type : Option String) (img : PILImage)
    (text m : String) (f : FieldSchema)
    (hnone : stub.client = none)
    (hclient : st.client = some c)
    (hopen : env.imageOpen file_stream = Except.ok img)
    (hgen : env.generate (generate_content_request img upload_type) = Except.ok text)
    (hne : text ≠ "")
    (hparse : env.jsonLoads text = none)
    (hopen3 : env3.imageOpen file_stream = Except.error m)
    (hsev : response_schema.properties.lookup "severity" = some f) :
    result_severity ((analyze_with_gemini env stub file_stream upload_type).1).1
        = some (Json.str "Error")
    ∧ result_severity ((analyze_with_gemini env st file_stream upload_type).1).1
        = some (Json.str "Error")
    ∧ result_severity ((analyze_with_gemini env3 st file_stream upload_type).1).1
        = some (Json.str "Error")
    ∧ f.enumVals = ["Low", "Moderate", "Severe", "Informational"]
    ∧ "Error" ∉ f.enumVals := by
  have hf : f = severity_field_schema := by
    have hl : response_schema.properties.lookup "severity" = some severity_field_schema := rfl
    rw [hl] at hsev
    exact (Option.some.inj hsev).symm
  refine ⟨?_, ?_, ?_, ?_, ?_⟩
  · simp only [analyze_with_gemini, hnone]
    rfl
  · simp [analyze_with_gemini, hclient, hopen, hgen, hne, hparse, result_severity]
    rfl
  · simp [analyze_with_gemini, hclient, hopen3, result_severity]
    rfl
  · rw [hf]
    rfl
  · rw [hf]
    decide

/-- Witness for claim C10: the three synthesized results at concrete runs,
and the schema enum read off directly. -/
theorem synthesized_severity_error_not_in_enum_witness :
    result_severity ((analyze_with_gemini env_bad_json state_without_client [5] none).1).1
        = some (Json.str "Error")
    ∧ result_severity ((analyze_with_gemini env_bad_json state_with_client [5] none).1).1
        = some (Json.str "Error")
    ∧ result_severity ((analyze_with_gemini env_open_fails state_with_client [5] none).1).1
        = some (Json.str "Error")
    ∧ severity_field_schema.enumVals = ["Low", "Moderate", "Severe", "Informational"]
    ∧ "Error" ∉ severity_field_schema.enumVals :=
  synthesized_severity_error_not_in_enum env_bad_json env_open_fails
    state_with_client state_without_client { model_name := "gemini-2.0-flash-lite" }
    [5] none { data := [5] } "not a json payload" "cannot identify image file"
    severity_field_schema
    rfl rfl rfl rfl (by decide) rfl rfl rfl

end Backend
